import Mathlib

/-!
# Verification of the MoyServer plugin registry and rendering pipeline

Shallow embedding of `src/app.js` (the whole server lives in that one file).

* JavaScript `Map` objects (and plain objects used as string-keyed records)
  are embedded as association lists with JS `Map` semantics: `set` on an
  existing key keeps its first-insertion position and overwrites the value,
  a fresh key is appended, iteration is insertion order.  Maps built by the
  program only ever grow through `set` starting from empty, so keys are
  unique and "the occurrence" of a key is its first occurrence.
* Promises are embedded as `Except`-valued outcomes threaded through the
  handler chain.  Network results (directory listings, file bodies, the
  outcomes of the external parser/template capabilities) are parameters of
  the embedded functions: they are inputs of the program, not part of it.
* Errors are represented by their textual description (`'' + e` / `e.message`),
  which is the only part of an `Error` object the program inspects.
-/

namespace MoyServer

/-! ## JS `Map` semantics (association lists) -/

/-- Embeds `Map.prototype.set`: an existing key keeps its (first-insertion) position
and its value is overwritten; a fresh key is appended at the end. -/
def jsMapSet : List (String × α) → String → α → List (String × α)
  | [], k, v => [(k, v)]
  | p :: rest, k, v => if p.1 = k then (k, v) :: rest else p :: jsMapSet rest k v

/-- Embeds `new Map(pairs)` (used at `src/app.js:124`): inserts the pairs left to
right, so a later pair with the same key overwrites an earlier one
(last-write-wins), keeping the earlier position. -/
def jsMapOfList (l : List (String × α)) : List (String × α) :=
  l.foldl (fun m p => jsMapSet m p.1 p.2) []

/-- Embeds `Map.prototype.get` (the program's keys are strings and its stored
entities are objects, hence never falsy). -/
def jsMapGet (m : List (String × α)) (k : String) : Option α :=
  (m.find? (fun p => p.1 = k)).map (fun p => p.2)

/-- Embeds `Map.prototype.values()` in iteration (= insertion) order. -/
def jsMapValues (m : List (String × α)) : List α :=
  m.map (fun p => p.2)

/-! ## Entities

`MoyParser` / `MoyTemplate` instances are external capabilities (required
from `./moyparser` / `./moytemplate`, not part of this file's source); the
registry code only uses their `name`, `isMatch`, `getRedirectUrl`, `options`
and `precompiled` members, so an entity is embedded as exactly those. -/

/-- The part of a constructed `MoyParser` instance that `app.js` reads. -/
structure ParserEntity where
  name : String
  isMatch : String → Bool
  /-- Embeds `getRedirectUrl(url)`; `none` stands for a JS `null`/`undefined` result. -/
  getRedirectUrl : String → Option String

/-- The part of a constructed `MoyTemplate` instance that `app.js` reads. -/
structure TemplateEntity where
  name : String
  precompiled : String
deriving DecidableEq

/-- Embeds `ORIGINAL_LOOK_NAME` (`src/app.js:15`). -/
def ORIGINAL_LOOK_NAME : String := "Original look"

/-- JS `String.prototype.trim`: strip leading and trailing whitespace
(`Char.isWhitespace` stands for the JS white-space/line-terminator class). -/
def jsTrim (s : String) : String :=
  String.mk
    (((s.data.dropWhile Char.isWhitespace).reverse.dropWhile
        Char.isWhitespace).reverse)

/-- Embeds `templateFilter` (`src/app.js:127`-`129`): keep a template iff its
trimmed name differs from the reserved pass-through name. -/
def templateFilter (template : TemplateEntity) : Bool :=
  ORIGINAL_LOOK_NAME ≠ jsTrim template.name

/-! ## Charset extraction and text decoding (`src/app.js:24,64-88`) -/

/-- The character class `[^()<>@,;:\"/[\]?.=\s]` of `CHARSET_RGX`
(`src/app.js:24`): everything except the listed separators and whitespace. -/
def charsetChar (c : Char) : Bool :=
  !(c = '(' || c = ')' || c = '<' || c = '>' || c = '@' || c = ',' || c = ';' ||
    c = ':' || c = '"' || c = '/' || c = '[' || c = ']' || c = '?' || c = '.' ||
    c = '=' || c.isWhitespace)

/-- Scan for the regex `/charset=(...)*/` on an (already lowercased) character
list: at the first position where `charset=` starts, capture the maximal run
of `charsetChar`s after it (the `*` accepts an empty run).  Returns `none`
when `charset=` does not occur — the `.test` of `CHARSET_RGX` fails. -/
def findCharsetCapture : List Char → Option (List Char)
  | [] => none
  | c :: cs =>
    if "charset=".data.isPrefixOf (c :: cs) then
      some ((cs.drop 7).takeWhile charsetChar)
    else
      findCharsetCapture cs

/-- Embeds `extractCharset` (`src/app.js:64`-`66`).  `CHARSET_RGX` has the `i` flag
and the final `.toLowerCase()` lowercases the capture, so matching on the
lowercased input is exact (the excluded characters are case-fixed symbols).
An empty or charset-less content type falls back to `'utf-8'`. -/
def extractCharset (contentType : String) : String :=
  match findCharsetCapture (contentType.data.map Char.toLower) with
  | some cs => String.mk cs
  | none => "utf-8"

/-- Encoding labels recognized by the platform's WHATWG `TextDecoder`
(Node's `util.TextDecoder`).  Modelled from the platform contract: the
WHATWG Encoding Standard's label table; abridged here to one label per
encoding (each encoding also has aliases).  The facts the development uses
are that `"utf-8"` is a label and that a made-up word is not. -/
def textDecoderLabels : List String :=
  ["utf-8", "ibm866", "iso-8859-2", "iso-8859-3", "iso-8859-4", "iso-8859-5",
   "iso-8859-6", "iso-8859-7", "iso-8859-8", "iso-8859-8-i", "iso-8859-10",
   "iso-8859-13", "iso-8859-14", "iso-8859-15", "iso-8859-16", "koi8-r",
   "koi8-u", "macintosh", "windows-874", "windows-1250", "windows-1251",
   "windows-1252", "windows-1253", "windows-1254", "windows-1255",
   "windows-1256", "windows-1257", "windows-1258", "x-mac-cyrillic",
   "gbk", "gb18030", "big5", "euc-jp", "iso-2022-jp", "shift_jis", "euc-kr",
   "replacement", "utf-16be", "utf-16le", "x-user-defined",
   "latin1", "ascii", "us-ascii", "iso-8859-1", "utf8", "unicode-1-1-utf-8"]

/-- Embeds `new TextDecoder(label)` — modelled from the platform contract (WHATWG
`TextDecoder`): the constructor throws a `RangeError` when the label is not
a recognized encoding label.  `dec` is the platform's per-encoding byte
decoder, a parameter of the embedding. -/
def textDecoderDecode (dec : String → List Nat → String) (label : String)
    (bytes : List Nat) : Except String String :=
  if textDecoderLabels.contains label then
    Except.ok (dec label bytes)
  else
    Except.error ("RangeError: \"" ++ label ++ "\" is not a supported encoding")

/-- Embeds `getFetchedText` (`src/app.js:68`-`72`): pick the charset from the
response's content-type header (`resp.headers.get('content-type') || ''`,
i.e. a missing header behaves as the empty string) and decode the body
bytes with it. -/
def getFetchedText (dec : String → List Nat → String)
    (contentTypeHeader : Option String) (bytes : List Nat) :
    Except String String :=
  let charset := extractCharset (contentTypeHeader.getD "")
  textDecoderDecode dec charset bytes

/-- A GitHub directory-listing element (`name`/`download_url`/`html_url`),
plus the optional `user_agent` override used by the render pipeline. -/
structure FileInfo where
  name : String
  download_url : String
  html_url : String
  user_agent : Option String := none

/-- An HTTP response as `fetchFile` consumes it: `ok`/`statusText` and the
content-type header plus body bytes. -/
structure HttpResp where
  ok : Bool
  statusText : String
  contentType : Option String
  bytes : List Nat

/-- The value `fetchFile` resolves with (the `headers` member is dropped:
no claim touches it and it is only echoed through verbatim). -/
structure FetchedFile where
  link : String
  text : String
deriving DecidableEq

/-- Embeds `fetchFile` (`src/app.js:74`-`88`): a non-ok HTTP status throws
`` `${resp.statusText}: ${url}` ``; otherwise resolve with the decoded text
paired with the file's `html_url`.  The response `resp` to the outbound
request is a parameter (a network rejection is represented by the caller
never producing an `HttpResp`, i.e. by passing the failure along outside
this function — per-file outcomes enter `fetchMap` as `Except` values). -/
def fetchFile (dec : String → List Nat → String) (githubFileInfo : FileInfo)
    (resp : HttpResp) : Except String FetchedFile :=
  if !resp.ok then
    Except.error (resp.statusText ++ ": " ++ githubFileInfo.download_url)
  else
    (getFetchedText dec resp.contentType resp.bytes).map
      (fun text => { link := githubFileInfo.html_url, text := text })

/-! ## Catalog population (`src/app.js:112-129`) -/

/-- Embeds `allPossible` (`src/app.js:112`-`114`): `p.catch(e => e)` turns each
rejected promise into a fulfilled one whose value is the error object, so
the surrounding `Promise.all` always fulfills with a list of
entity-or-error values.  `Sum.inl` is an `Error` value (`e instanceof
Error` true), `Sum.inr` a constructed entity. -/
def allPossible (promises : List (Except String α)) : List (String ⊕ α) :=
  promises.map (fun p => match p with
    | Except.ok a => Sum.inr a
    | Except.error e => Sum.inl e)

/-- The record `{ok, error}` a successful `fetchMap` resolves with. -/
structure FetchMapResult (α : Type) where
  ok : List (String × α)
  error : List String

/-- The successes of a batch after the optional entity filter: the inputs
of the `new Map(...)` at `src/app.js:124`. -/
def filteredSuccesses (fetches : List (Except String α))
    (entityFilter : Option (α → Bool)) : List α :=
  let ok := (allPossible fetches).filterMap (fun e => match e with
    | Sum.inr a => some a
    | Sum.inl _ => none)
  match entityFilter with
  | some f => ok.filter f
  | none => ok

/-- The error values of a batch (`entities.filter(e => e instanceof Error)`,
`src/app.js:120`). -/
def batchErrors (fetches : List (Except String α)) : List String :=
  (allPossible fetches).filterMap (fun e => match e with
    | Sum.inl e => some e
    | Sum.inr _ => none)

/-- The body of `fetchMap` after the directory listing succeeded
(`src/app.js:118`-`124`): partition the per-file outcomes, prune the
successes with the optional filter, and build the name-keyed JS `Map`. -/
def fetchMapCore (fetches : List (Except String α))
    (getName : α → String) (entityFilter : Option (α → Bool)) :
    FetchMapResult α :=
  { ok := jsMapOfList ((filteredSuccesses fetches entityFilter).map
            (fun e => (getName e, e))),
    error := batchErrors fetches }

/-- Embeds `fetchMap` (`src/app.js:116`-`125`).  `dirResult` is the outcome of
`fetchDir(dirname)` — on rejection (the `await` rethrows) the whole
`fetchMap` promise rejects with it; on success it carries the per-file
outcomes of `dir.map(fileFetcher)` (each a fulfilled entity or a
rejection). -/
def fetchMap (dirResult : Except String (List (Except String α)))
    (getName : α → String) (entityFilter : Option (α → Bool)) :
    Except String (FetchMapResult α) :=
  match dirResult with
  | Except.error e => Except.error e
  | Except.ok fetches => Except.ok (fetchMapCore fetches getName entityFilter)

/-! ## Registry state and `refreshData` (`src/app.js:44-50,131-158`) -/

/-- The mutable module-level `state` (`src/app.js:44`-`50`).  The in-flight
promise is identified by a numeric id (promises are compared by identity in
the single-flight check `if (!state.refreshDataPromise)`). -/
structure RegistryState where
  parsers : List (String × ParserEntity)
  templates : List (String × TemplateEntity)
  lastRefresh : Nat
  refreshDataPromise : Option Nat
  lastRefreshError : Option String

/-- The aggregate error message thrown at `src/app.js:141`-`142`:
`parserErrors.join('\n') + '\n' + templateErrors.join('\n')`. -/
def aggregateErrorMessage (parserErrors templateErrors : List String) : String :=
  String.intercalate "\n" parserErrors ++ "\n" ++ String.intercalate "\n" templateErrors

/-- Embeds `Promise.all` of the two `fetchMap`s (`src/app.js:133`-`136`): rejects
iff either rejects.  When both reject, JS rejects with whichever settles
first; the embedding deterministically takes the parser directory's error
(the claims only depend on *that* a listing failure rejects). -/
def promiseAllPair (a : Except String α) (b : Except String β) :
    Except String (α × β) :=
  match a, b with
  | Except.error e, _ => Except.error e
  | _, Except.error e => Except.error e
  | Except.ok x, Except.ok y => Except.ok (x, y)

/-- The `.then` handler at `src/app.js:137`-`147`: publish both catalogs,
then either throw the aggregate error (some per-entry failures) or clear
`lastRefreshError` (none). -/
def refreshThenHandler
    (res : FetchMapResult ParserEntity × FetchMapResult TemplateEntity)
    (s : RegistryState) : RegistryState × Except String Unit :=
  let s1 := { s with parsers := res.1.ok, templates := res.2.ok }
  if res.1.error.length > 0 ∨ res.2.error.length > 0 then
    (s1, Except.error (aggregateErrorMessage res.1.error res.2.error))
  else
    ({ s1 with lastRefreshError := none }, Except.ok ())

/-- The `.catch` handler at `src/app.js:148`-`151`: record the error and
return normally, so the chained promise fulfills. -/
def refreshCatchHandler (e : String) (s : RegistryState) :
    RegistryState × Except String Unit :=
  ({ s with lastRefreshError := some e }, Except.ok ())

/-- The `.finally` handler at `src/app.js:152`-`155`: stamp `lastRefresh`
and clear the single-flight slot, preserving the settled outcome. -/
def refreshFinallyHandler (s : RegistryState) (now : Nat) : RegistryState :=
  { s with lastRefresh := now, refreshDataPromise := none }

/-- The complete settling of one refresh attempt: the
`Promise.all(...).then(...).catch(...).finally(...)` chain of
`src/app.js:133`-`155`, as a function of the two directories' fetch
outcomes.  `parsersDir` / `templatesDir` are the inputs of
`fetchMap(PARSERS_DIR, fetchParser)` and
`fetchMap(TEMPLATES_DIR, fetchTemplate, templateFilter)`.  Returns the
registry state after settling together with the chained promise's final
outcome (`Except.ok ()` = fulfilled). -/
def refreshComplete
    (parsersDir : Except String (List (Except String ParserEntity)))
    (templatesDir : Except String (List (Except String TemplateEntity)))
    (now : Nat) (s : RegistryState) : RegistryState × Except String Unit :=
  let allRes := promiseAllPair
    (fetchMap parsersDir ParserEntity.name none)
    (fetchMap templatesDir TemplateEntity.name (some templateFilter))
  let afterThen := match allRes with
    | Except.ok res => refreshThenHandler res s
    | Except.error e => (s, Except.error e)
  let afterCatch := match afterThen with
    | (s1, Except.ok u) => (s1, Except.ok u)
    | (s1, Except.error e) => refreshCatchHandler e s1
  (refreshFinallyHandler afterCatch.1 now, afterCatch.2)

/-- System state for the single-flight discipline: the registry plus a
fresh-promise counter and a count of fetch batches started (each batch is
one `Promise.all` of the two directory fetches). -/
structure SysState where
  reg : RegistryState
  nextPromiseId : Nat
  batchesStarted : Nat

/-- The synchronous part of `refreshData()` (`src/app.js:131`-`158`): if a
refresh promise is in flight, return it unchanged (no new batch); otherwise
create a fresh promise, store it in the single-flight slot, start one fetch
batch, and return it. -/
def refreshDataCall (s : SysState) : SysState × Nat :=
  match s.reg.refreshDataPromise with
  | some p => (s, p)
  | none =>
    ({ reg := { s.reg with refreshDataPromise := some s.nextPromiseId },
       nextPromiseId := s.nextPromiseId + 1,
       batchesStarted := s.batchesStarted + 1 },
     s.nextPromiseId)

/-- The asynchronous part: the in-flight refresh settles with the given
fetch outcomes (`refreshComplete` on the registry component). -/
def refreshDataSettle
    (parsersDir : Except String (List (Except String ParserEntity)))
    (templatesDir : Except String (List (Except String TemplateEntity)))
    (now : Nat) (s : SysState) : SysState × Except String Unit :=
  let r := refreshComplete parsersDir templatesDir now s.reg
  ({ s with reg := r.1 }, r.2)

/-! ## Dispatcher (`src/app.js:167-188`) -/

/-- Embeds `findValue` (`src/app.js:167`-`175`): for each map in the array, for
each of its values in iteration order, return the first value satisfying
the predicate; fall through to `undefined`. -/
def findValue (mapArray : List (List (String × α))) (predicate : α → Bool) :
    Option α :=
  match mapArray with
  | [] => none
  | aMap :: rest =>
    match (jsMapValues aMap).find? predicate with
    | some v => some v
    | none => findValue rest predicate

/-- Embeds `findParser` (`src/app.js:186`-`188`): `url && findValue([parsers], p =>
p.isMatch(url))` — a falsy url (absent query parameter or empty string)
short-circuits to a falsy result, embedded as `none`. -/
def findParser (parsers : List (String × ParserEntity)) (url : Option String) :
    Option ParserEntity :=
  match url with
  | none => none
  | some u =>
    if u = "" then none
    else findValue [parsers] (fun p => p.isMatch u)

/-! ## Token normalization (`src/app.js:190-207`) -/

/-- JS template-literal interpolation of a possibly-`undefined` query
parameter: `` `${x}` `` prints `undefined` when the parameter is absent. -/
def jsInterpolate : Option String → String
  | none => "undefined"
  | some s => s

/-- A value in an extracted `NamedValueTree`: a scalar, a JS array (whose
`toString` is either the default `Array.prototype.toString`, which joins
with `','`, or — after polishing — `customArrayToString`, which joins with
`' '`; the Boolean records which), or a plain object of named fields. -/
inductive Token where
  | scalar (s : String)
  | arr (elems : List Token) (flattened : Bool)
  | obj (fields : List (String × Token))

/-- Embeds `polishToken` (`src/app.js:198`-`207`): install `customArrayToString`
on every array and recurse into array elements and object field values.
(The source visits an array's elements twice — once via `forEach`, once via
`Object.values`, since a JS array's index properties are its own enumerable
properties — applying the same function both times; the second visit
re-applies `polishToken` to already-polished elements, which `polishToken_idem`
below shows is the identity, so a single recursion is exact.) -/
def polishToken : Token → Token
  | Token.scalar s => Token.scalar s
  | Token.arr elems _ =>
    Token.arr (elems.attach.map (fun e => polishToken e.1)) true
  | Token.obj fields =>
    Token.obj (fields.attach.map (fun f => (f.1.1, polishToken f.1.2)))
decreasing_by
  · have := List.sizeOf_lt_of_mem e.2
    simp only [Token.arr.sizeOf_spec]
    omega
  · obtain ⟨⟨a, b⟩, hmem⟩ := f
    have := List.sizeOf_lt_of_mem hmem
    simp at this ⊢
    omega

/-- JS stringification of a token as the template engine sees it:
`customArrayToString` joins with a single space, the default array
`toString` joins with `','`, a plain object prints as `[object Object]`. -/
def tokenToString : Token → String
  | Token.scalar s => s
  | Token.arr elems flattened =>
    String.intercalate (if flattened then " " else ",")
      (elems.attach.map (fun e => tokenToString e.1))
  | Token.obj _ => "[object Object]"
decreasing_by
  have := List.sizeOf_lt_of_mem e.2
  simp only [Token.arr.sizeOf_spec]
  omega

/-- Every array anywhere in the token tree carries the space-joining
`customArrayToString`. -/
def allFlattened : Token → Bool
  | Token.scalar _ => true
  | Token.arr elems flattened =>
    flattened && (elems.attach.all (fun e => allFlattened e.1))
  | Token.obj fields => fields.attach.all (fun f => allFlattened f.1.2)
decreasing_by
  · have := List.sizeOf_lt_of_mem e.2
    simp only [Token.arr.sizeOf_spec]
    omega
  · obtain ⟨⟨a, b⟩, hmem⟩ := f
    have := List.sizeOf_lt_of_mem hmem
    simp at this ⊢
    omega

/-- The tree with every array's `toString` marker erased: what remains of a
token once the flatten-to-text annotation is forgotten (scalars, element
order, field names and values). -/
def stripFlags : Token → Token
  | Token.scalar s => Token.scalar s
  | Token.arr elems _ =>
    Token.arr (elems.attach.map (fun e => stripFlags e.1)) false
  | Token.obj fields =>
    Token.obj (fields.attach.map (fun f => (f.1.1, stripFlags f.1.2)))
decreasing_by
  · have := List.sizeOf_lt_of_mem e.2
    simp only [Token.arr.sizeOf_spec]
    omega
  · obtain ⟨⟨a, b⟩, hmem⟩ := f
    have := List.sizeOf_lt_of_mem hmem
    simp at this ⊢
    omega

/-! ## The render endpoint (`src/app.js:209-251`) -/

/-- The configuration surface `render` reads (`src/app.js:30-42`). -/
structure Settings where
  defaultContentType : String
  defaultUserAgent : String

/-- A Node `http.ServerResponse` as `render` drives it.  `writeHead`
serializes the status line and headers immediately, so a later assignment
to `res.statusCode` no longer affects the response: the effective status is
the `writeHead` one when a head was written, else `statusCode`. -/
structure Res where
  statusCode : Nat
  /-- Status and content-type fixed by an explicit `res.writeHead`, if one ran. -/
  writtenHead : Option (Nat × String)
  /-- The body passed to `res.end`. -/
  body : Option String

/-- The status actually sent on the wire (modelled from the platform
contract: with explicit headers, `response.statusCode` is ignored). -/
def Res.finalStatus (r : Res) : Nat :=
  (r.writtenHead.map (fun h => h.1)).getD r.statusCode

/-- The content-type actually sent (only `writeHead` sets one here). -/
def Res.finalContentType (r : Res) : Option String :=
  r.writtenHead.map (fun h => h.2)

/-- The `catch` block at `src/app.js:246`-`250` when no response head has
been written yet: `res.statusCode = 500; res.end('' + e)`. -/
def renderCatch (e : String) : Res :=
  { statusCode := 500, writtenHead := none, body := some e }

/-- Embeds `url = parser.getRedirectUrl(url) || url` (`src/app.js:224`): JS `||`
keeps the original url when the redirect is `null`/`undefined` or the empty
string (single-hop resolution). -/
def resolveRedirect (parser : ParserEntity) (u : String) : String :=
  match parser.getRedirectUrl u with
  | some r => if r = "" then u else r
  | none => u

/-- The token context built at `src/app.js:235`-`241`: `BASE_URL` and
`FULL_URL` injected as plain single-element arrays, then each parsed
name/value added with the value polished (a parsed name equal to an
injected one overwrites it, JS object assignment). -/
def renderTokens (content : List (String × Token)) (origin url1 : String) :
    List (String × Token) :=
  content.foldl (fun m p => jsMapSet m p.1 (polishToken p.2))
    [("BASE_URL", Token.arr [Token.scalar origin] false),
     ("FULL_URL", Token.arr [Token.scalar url1] false)]

/-- Embeds `render` (`src/app.js:209`-`251`).  The per-request externals are
parameters:

* `pageFetch url` — the outcome of `fetchFile({download_url: url, ...})`
  for the (possibly redirected) target, reduced to the decoded page text;
* `parseContent webData` — the outcome of building the page DOM and the
  page-bound `MoyParser` and of `realParser.parse()`, reduced to the
  `content` name→value entries;
* `urlOrigin url` — `new URL(url).origin`, which throws on an invalid URL;
* `evalSpec template` — the `eval` of the template's precompiled spec;
* `runTemplate tokens` — `Handlebars.template(spec)(tokens)`.

Control flow mirrors the source: missing template → early 404; no matching
parser → early 404; a redirect target from `getRedirectUrl(url) || url`
(`||`: `null`/`undefined`/`''` keep the original url); then fetch, parse,
token building (`BASE_URL`/`FULL_URL` injected as plain single-element
arrays, each parsed value polished, later parsed names overwriting), the
spec `eval`, then `res.writeHead(200, contentType)` and only after that the
evaluation of the render call in `res.end(...)`'s argument; any throw lands
in the `catch`. -/
def render (settings : Settings)
    (templates : List (String × TemplateEntity))
    (parsers : List (String × ParserEntity))
    (qUrl qTemplate : Option String)
    (pageFetch : String → Except String String)
    (parseContent : String → Except String (List (String × Token)))
    (urlOrigin : String → Except String String)
    (evalSpec : TemplateEntity → Except String Unit)
    (runTemplate : List (String × Token) → Except String String) : Res :=
  match qTemplate.bind (jsMapGet templates) with
  | none =>
    { statusCode := 404, writtenHead := none,
      body := some ("Template " ++ jsInterpolate qTemplate ++ " not found") }
  | some template =>
    match qUrl, findParser parsers qUrl with
    | _, none =>
      { statusCode := 404, writtenHead := none,
        body := some ("No matching parsers for " ++ jsInterpolate qUrl) }
    | none, some _ =>
      -- unreachable: `findParser _ none = none`
      { statusCode := 404, writtenHead := none,
        body := some ("No matching parsers for " ++ jsInterpolate qUrl) }
    | some u, some parser =>
      let url1 := resolveRedirect parser u
      match pageFetch url1 with
      | Except.error e => renderCatch e
      | Except.ok webData =>
        match parseContent webData with
        | Except.error e => renderCatch e
        | Except.ok content =>
          match urlOrigin url1 with
          | Except.error e => renderCatch e
          | Except.ok origin =>
            let tokens := renderTokens content origin url1
            match evalSpec template with
            | Except.error e => renderCatch e
            | Except.ok _ =>
              match runTemplate tokens with
              | Except.error e =>
                -- the catch runs after `writeHead(200, ...)`: the 500 it
                -- assigns to `statusCode` no longer reaches the wire
                { statusCode := 500,
                  writtenHead := some (200, settings.defaultContentType),
                  body := some e }
              | Except.ok out =>
                { statusCode := 200,
                  writtenHead := some (200, settings.defaultContentType),
                  body := some out }

/-! ## Library lemmas about the JS `Map` embedding -/

theorem jsMapGet_nil (k : String) : jsMapGet ([] : List (String × α)) k = none := rfl

theorem jsMapGet_cons (p : String × α) (m : List (String × α)) (k : String) :
    jsMapGet (p :: m) k = if p.1 = k then some p.2 else jsMapGet m k := by
  by_cases h : p.1 = k <;> simp [jsMapGet, List.find?, h]

theorem jsMapGet_jsMapSet (m : List (String × α)) (k k' : String) (v : α) :
    jsMapGet (jsMapSet m k v) k' = if k' = k then some v else jsMapGet m k' := by
  induction m with
  | nil =>
    by_cases h : k' = k
    · subst h; simp [jsMapSet, jsMapGet_cons]
    · have h' : ¬ k = k' := fun hh => h hh.symm
      simp [jsMapSet, jsMapGet_cons, jsMapGet_nil, h, h']
  | cons p rest ih =>
    by_cases hpk : p.1 = k
    · simp only [jsMapSet, hpk, if_true]
      rw [jsMapGet_cons, jsMapGet_cons]
      by_cases h : k' = k
      · subst h; simp
      · have h1 : ¬ k = k' := fun hh => h hh.symm
        have h2 : ¬ p.1 = k' := fun hh => h ((hpk.symm.trans hh).symm)
        simp [h, h1, h2]
    · simp only [jsMapSet, hpk, if_false]
      rw [jsMapGet_cons, jsMapGet_cons, ih]
      by_cases hpk' : p.1 = k'
      · have hne : ¬ k' = k := fun hh => hpk (hpk'.trans hh)
        simp [hpk', hne]
      · simp [hpk']

theorem jsMapGet_foldl_jsMapSet (l : List (String × α)) (m0 : List (String × α))
    (k : String) :
    jsMapGet (l.foldl (fun m p => jsMapSet m p.1 p.2) m0) k =
      Option.or ((l.reverse.find? (fun p => p.1 = k)).map (fun p => p.2))
        (jsMapGet m0 k) := by
  induction l generalizing m0 with
  | nil => simp
  | cons p t ih =>
    simp only [List.foldl_cons, List.reverse_cons, ih, List.find?_append]
    cases ht : t.reverse.find? (fun p => decide (p.1 = k)) with
    | some q => rfl
    | none =>
      simp only [Option.none_or, Option.map_none', jsMapGet_jsMapSet]
      by_cases hk : k = p.1
      · subst hk; simp [List.find?]
      · have h' : ¬ p.1 = k := fun hh => hk hh.symm
        simp [List.find?, h', hk]

theorem jsMapOfList_get (l : List (String × α)) (k : String) :
    jsMapGet (jsMapOfList l) k =
      (l.reverse.find? (fun p => p.1 = k)).map (fun p => p.2) := by
  rw [jsMapOfList, jsMapGet_foldl_jsMapSet]
  simp [jsMapGet_nil]

theorem jsMapSet_mem (m : List (String × α)) (k : String) (v : α) (q : String × α)
    (h : q ∈ jsMapSet m k v) : q ∈ m ∨ q = (k, v) := by
  induction m with
  | nil => simp [jsMapSet] at h; simp [h]
  | cons p rest ih =>
    by_cases hpk : p.1 = k
    · simp only [jsMapSet, hpk, if_true, List.mem_cons] at h
      rcases h with h | h
      · right; simp [h]
      · left; simp [h]
    · simp only [jsMapSet, hpk, if_false, List.mem_cons] at h
      rcases h with h | h
      · left; simp [h]
      · rcases ih h with h' | h'
        · left; simp [h']
        · right; exact h'

theorem jsMapFoldl_mem (l : List (String × α)) (m0 : List (String × α))
    (q : String × α) (h : q ∈ l.foldl (fun m p => jsMapSet m p.1 p.2) m0) :
    q ∈ m0 ∨ q ∈ l := by
  induction l generalizing m0 with
  | nil => simp at h; simp [h]
  | cons p t ih =>
    simp only [List.foldl_cons] at h
    rcases ih (jsMapSet m0 p.1 p.2) h with h' | h'
    · rcases jsMapSet_mem _ _ _ _ h' with h'' | h''
      · exact Or.inl h''
      · right; simp [h'']
    · right; simp [h']

theorem jsMapOfList_mem (l : List (String × α)) (q : String × α)
    (h : q ∈ jsMapOfList l) : q ∈ l := by
  rcases jsMapFoldl_mem l [] q h with h' | h'
  · simp at h'
  · exact h'

/-! ## Library lemmas about tokens -/

theorem listAttachAll (l : List α) (g : α → Bool) :
    l.attach.all (fun x => g x.1) = l.all g := by
  apply Bool.eq_iff_iff.mpr
  simp only [List.all_eq_true]
  constructor
  · intro h x hx; exact h ⟨x, hx⟩ (List.mem_attach l _)
  · intro h x _; exact h x.1 x.2

theorem polishToken_scalar (s : String) :
    polishToken (Token.scalar s) = Token.scalar s := by
  simp [polishToken]

theorem polishToken_arr (elems : List Token) (flattened : Bool) :
    polishToken (Token.arr elems flattened) =
      Token.arr (elems.map polishToken) true := by
  rw [polishToken]
  simp

theorem polishToken_obj (fields : List (String × Token)) :
    polishToken (Token.obj fields) =
      Token.obj (fields.map (fun f => (f.1, polishToken f.2))) := by
  rw [polishToken]
  exact congrArg Token.obj
    (List.attach_map_coe fields (fun f => (f.1, polishToken f.2)))

theorem tokenToString_arr (elems : List Token) (flattened : Bool) :
    tokenToString (Token.arr elems flattened) =
      String.intercalate (if flattened then " " else ",")
        (elems.map tokenToString) := by
  rw [tokenToString]
  simp

theorem allFlattened_arr (elems : List Token) (flattened : Bool) :
    allFlattened (Token.arr elems flattened) =
      (flattened && elems.all allFlattened) := by
  rw [allFlattened]
  rw [listAttachAll elems allFlattened]

theorem allFlattened_obj (fields : List (String × Token)) :
    allFlattened (Token.obj fields) =
      fields.all (fun f => allFlattened f.2) := by
  rw [allFlattened]
  exact listAttachAll fields (fun f => allFlattened f.2)

theorem stripFlags_arr (elems : List Token) (flattened : Bool) :
    stripFlags (Token.arr elems flattened) =
      Token.arr (elems.map stripFlags) false := by
  rw [stripFlags]
  simp

theorem stripFlags_obj (fields : List (String × Token)) :
    stripFlags (Token.obj fields) =
      Token.obj (fields.map (fun f => (f.1, stripFlags f.2))) := by
  rw [stripFlags]
  exact congrArg Token.obj
    (List.attach_map_coe fields (fun f => (f.1, stripFlags f.2)))

theorem polishToken_idem (t : Token) :
    polishToken (polishToken t) = polishToken t := by
  induction t using polishToken.induct with
  | case1 s => simp [polishToken_scalar]
  | case2 elems fl ih =>
    simp only [polishToken_arr, List.map_map]
    congr 1
    apply List.map_congr_left
    intro e he
    exact ih ⟨e, he⟩
  | case3 fields ih =>
    simp only [polishToken_obj, List.map_map]
    congr 1
    apply List.map_congr_left
    intro f hf
    simpa using ih ⟨f, hf⟩

theorem stripFlags_polishToken (t : Token) :
    stripFlags (polishToken t) = stripFlags t := by
  induction t using polishToken.induct with
  | case1 s => simp [polishToken_scalar]
  | case2 elems fl ih =>
    simp only [polishToken_arr, stripFlags_arr, List.map_map]
    congr 1
    apply List.map_congr_left
    intro e he
    exact ih ⟨e, he⟩
  | case3 fields ih =>
    simp only [polishToken_obj, stripFlags_obj, List.map_map]
    congr 1
    apply List.map_congr_left
    intro f hf
    simpa using ih ⟨f, hf⟩

theorem allFlattened_polishToken (t : Token) :
    allFlattened (polishToken t) = true := by
  induction t using polishToken.induct with
  | case1 s => simp [polishToken_scalar, allFlattened]
  | case2 elems fl ih =>
    simp only [polishToken_arr, allFlattened_arr, Bool.true_and, List.all_map,
      List.all_eq_true]
    intro e he
    exact ih ⟨e, he⟩
  | case3 fields ih =>
    simp only [polishToken_obj, allFlattened_obj, List.all_map, List.all_eq_true]
    intro f hf
    simpa using ih ⟨f, hf⟩

/-! ## Claim C7 and C10: normalization -/

/-- C7: after normalization, every sequence value at every depth — including
sequences nested inside other sequences and inside nested mappings — carries
the flatten-to-text behavior that joins its elements with a single space
(`["a","b","c"]` flattens to `"a b c"`, also through nesting), while the
individual elements remain addressable by position (the element at index `i`
of a polished sequence is the polished element at index `i` of the input). -/
theorem polishToken_flattens_every_sequence (t : Token) (es : List Token)
    (b : Bool) (i : Nat) :
    allFlattened (polishToken t) = true ∧
    polishToken (Token.arr es b) = Token.arr (es.map polishToken) true ∧
    tokenToString (Token.arr (es.map polishToken) true) =
      String.intercalate " " ((es.map polishToken).map tokenToString) ∧
    (es.map polishToken)[i]? = es[i]?.map polishToken ∧
    tokenToString (polishToken (Token.arr
      [Token.scalar "a", Token.scalar "b", Token.scalar "c"] false)) = "a b c" ∧
    tokenToString (polishToken (Token.arr
      [Token.arr [Token.scalar "a", Token.scalar "b"] false,
       Token.scalar "c"] false)) = "a b c" := by
  refine ⟨allFlattened_polishToken t, polishToken_arr es b, ?_, ?_, ?_, ?_⟩
  · rw [tokenToString_arr]
    simp
  · exact List.getElem?_map polishToken es i
  · simp [polishToken_arr, polishToken_scalar, tokenToString_arr, tokenToString]
    rfl
  · simp [polishToken_arr, polishToken_scalar, tokenToString_arr, tokenToString]
    rfl

/-- C10: normalization is idempotent, and it changes nothing in the tree
except installing the space-joining flatten-to-text marker on every sequence:
scalars are returned unchanged, and erasing the markers from a polished tree
gives back the marker-erased input (so element order, field names and all
scalar values are untouched). -/
theorem polishToken_idempotent_and_only_flattens (t : Token) (s : String) :
    polishToken (polishToken t) = polishToken t ∧
    polishToken (Token.scalar s) = Token.scalar s ∧
    stripFlags (polishToken t) = stripFlags t ∧
    allFlattened (polishToken t) = true :=
  ⟨polishToken_idem t, polishToken_scalar s, stripFlags_polishToken t,
   allFlattened_polishToken t⟩

/-! ## Claim C6: `findParser` -/

theorem findValue_singleton (m : List (String × α)) (pred : α → Bool) :
    findValue [m] pred = (jsMapValues m).find? pred := by
  rw [findValue]
  cases h : (jsMapValues m).find? pred <;> simp [findValue]

/-- C6: `findParser` scans the parser catalog's values in insertion order and
returns the first entry whose match predicate accepts the url: an absent or
empty url yields no entry, a catalog with no matching entry yields no entry,
and when an entry `a` matches and every entry inserted before it does not,
`a` is returned — in particular, of two matching entries the earlier-inserted
one is returned (entries after `a` are unconstrained). -/
theorem findParser_first_catalog_match (parsers : List (String × ParserEntity))
    (pre post : List (String × ParserEntity)) (a : String × ParserEntity)
    (u : String) :
    findParser parsers none = none ∧
    findParser parsers (some "") = none ∧
    (u ≠ "" → findParser parsers (some u) =
      (jsMapValues parsers).find? (fun p => p.isMatch u)) ∧
    ((∀ p ∈ jsMapValues parsers, p.isMatch u = false) →
      findParser parsers (some u) = none) ∧
    (u ≠ "" → (∀ q ∈ jsMapValues pre, q.isMatch u = false) →
      a.2.isMatch u = true →
      findParser (pre ++ a :: post) (some u) = some a.2) := by
  refine ⟨rfl, by simp [findParser], ?_, ?_, ?_⟩
  · intro hu
    simp [findParser, hu, findValue_singleton]
  · intro hnone
    by_cases hu : u = ""
    · simp [findParser, hu]
    · simp only [findParser, hu, if_false, findValue_singleton]
      exact List.find?_eq_none.mpr (fun x hx => by simp [hnone x hx])
  · intro hu hpre ha
    simp only [findParser, hu, if_false, findValue_singleton, jsMapValues,
      List.map_append, List.map_cons, List.find?_append]
    have hprenone : (pre.map (fun p => p.2)).find? (fun p => p.isMatch u) = none := by
      apply List.find?_eq_none.mpr
      intro x hx
      simp [hpre x (by simpa [jsMapValues] using hx)]
    rw [hprenone]
    simp [List.find?, ha]

/-- A parser entity that matches every url (for concrete instantiations). -/
def alwaysMatchParser (n : String) : ParserEntity :=
  { name := n, isMatch := fun _ => true, getRedirectUrl := fun _ => none }

/-- Witness for C6: in a catalog holding `A` then `B`, both of which match
every url, `findParser` returns `A`, the earlier-inserted entry. -/
theorem findParser_first_catalog_match_witness :
    "https://example.com/x" ≠ "" ∧
    (alwaysMatchParser "A").isMatch "https://example.com/x" = true ∧
    findParser
      [("A", alwaysMatchParser "A"), ("B", alwaysMatchParser "B")]
      (some "https://example.com/x") = some (alwaysMatchParser "A") := by
  refine ⟨by decide, rfl, ?_⟩
  exact (findParser_first_catalog_match [] [] [("B", alwaysMatchParser "B")]
    ("A", alwaysMatchParser "A") "https://example.com/x").2.2.2.2
    (by decide) (by simp [jsMapValues]) rfl

/-! ## Library lemmas about the refresh chain -/

theorem fetchMapCore_error (fetches : List (Except String α))
    (getName : α → String) (entityFilter : Option (α → Bool)) :
    (fetchMapCore fetches getName entityFilter).error = batchErrors fetches := rfl

theorem fetchMapCore_ok_eq (fetches : List (Except String α))
    (getName : α → String) (entityFilter : Option (α → Bool)) :
    (fetchMapCore fetches getName entityFilter).ok =
      jsMapOfList ((filteredSuccesses fetches entityFilter).map
        (fun e => (getName e, e))) := rfl

theorem refreshComplete_ok_ok (fp : List (Except String ParserEntity))
    (ft : List (Except String TemplateEntity)) (now : Nat) (s : RegistryState) :
    refreshComplete (Except.ok fp) (Except.ok ft) now s =
      (if (batchErrors fp).length > 0 ∨ (batchErrors ft).length > 0 then
         ({ s with
              parsers := (fetchMapCore fp ParserEntity.name none).ok,
              templates :=
                (fetchMapCore ft TemplateEntity.name (some templateFilter)).ok,
              lastRefreshError :=
                some (aggregateErrorMessage (batchErrors fp) (batchErrors ft)),
              lastRefresh := now,
              refreshDataPromise := none },
          Except.ok ())
       else
         ({ s with
              parsers := (fetchMapCore fp ParserEntity.name none).ok,
              templates :=
                (fetchMapCore ft TemplateEntity.name (some templateFilter)).ok,
              lastRefreshError := none,
              lastRefresh := now,
              refreshDataPromise := none },
          Except.ok ())) := by
  by_cases h : (batchErrors fp).length > 0 ∨ (batchErrors ft).length > 0
  · simp only [refreshComplete, fetchMap, promiseAllPair, refreshThenHandler,
      refreshCatchHandler, refreshFinallyHandler, fetchMapCore_error, if_pos h]
  · simp only [refreshComplete, fetchMap, promiseAllPair, refreshThenHandler,
      refreshCatchHandler, refreshFinallyHandler, fetchMapCore_error, if_neg h]

theorem refreshComplete_pd_error (e : String)
    (td : Except String (List (Except String TemplateEntity)))
    (now : Nat) (s : RegistryState) :
    refreshComplete (Except.error e) td now s =
      ({ s with
           lastRefreshError := some e,
           lastRefresh := now,
           refreshDataPromise := none },
       Except.ok ()) := by
  cases td <;> rfl

theorem refreshComplete_td_error (fp : List (Except String ParserEntity))
    (e : String) (now : Nat) (s : RegistryState) :
    refreshComplete (Except.ok fp) (Except.error e) now s =
      ({ s with
           lastRefreshError := some e,
           lastRefresh := now,
           refreshDataPromise := none },
       Except.ok ()) := rfl

theorem refreshComplete_catalogs
    (pd : Except String (List (Except String ParserEntity)))
    (td : Except String (List (Except String TemplateEntity)))
    (now : Nat) (s : RegistryState) :
    (∃ fp ft, pd = Except.ok fp ∧ td = Except.ok ft ∧
      (refreshComplete pd td now s).1.parsers =
        (fetchMapCore fp ParserEntity.name none).ok ∧
      (refreshComplete pd td now s).1.templates =
        (fetchMapCore ft TemplateEntity.name (some templateFilter)).ok) ∨
    ((refreshComplete pd td now s).1.parsers = s.parsers ∧
     (refreshComplete pd td now s).1.templates = s.templates) := by
  cases pd with
  | error e => right; rw [refreshComplete_pd_error]; exact ⟨rfl, rfl⟩
  | ok fp =>
    cases td with
    | error e => right; rw [refreshComplete_td_error]; exact ⟨rfl, rfl⟩
    | ok ft =>
      left
      refine ⟨fp, ft, rfl, rfl, ?_, ?_⟩ <;>
        · rw [refreshComplete_ok_ok]
          split
          · rfl
          · rfl

theorem refreshComplete_clears_gate
    (pd : Except String (List (Except String ParserEntity)))
    (td : Except String (List (Except String TemplateEntity)))
    (now : Nat) (s : RegistryState) :
    (refreshComplete pd td now s).1.lastRefresh = now ∧
    (refreshComplete pd td now s).1.refreshDataPromise = none := by
  rw [refreshComplete]
  exact ⟨rfl, rfl⟩

theorem refreshComplete_resolves
    (pd : Except String (List (Except String ParserEntity)))
    (td : Except String (List (Except String TemplateEntity)))
    (now : Nat) (s : RegistryState) :
    (refreshComplete pd td now s).2 = Except.ok () := by
  cases pd with
  | error e => rw [refreshComplete_pd_error]
  | ok fp =>
    cases td with
    | error e => rw [refreshComplete_td_error]
    | ok ft =>
      rw [refreshComplete_ok_ok]
      split <;> rfl

/-! ## Claim C1: completion of a refresh with both listings succeeding -/

/-- C1: when both directory listings succeed, both catalogs are replaced
with the successfully built entries; `lastRefreshError` becomes the
aggregate of all per-entry failure messages when at least one per-entry
fetch or construction failed, and `none` when there were zero failures; and
the refresh future fulfills (the failure is recorded, never propagated as a
rejection). -/
theorem refreshData_completion_both_listings_ok
    (pd : List (Except String ParserEntity))
    (td : List (Except String TemplateEntity)) (now : Nat) (s : RegistryState) :
    (refreshComplete (Except.ok pd) (Except.ok td) now s).1.parsers =
      (fetchMapCore pd ParserEntity.name none).ok ∧
    (refreshComplete (Except.ok pd) (Except.ok td) now s).1.templates =
      (fetchMapCore td TemplateEntity.name (some templateFilter)).ok ∧
    (refreshComplete (Except.ok pd) (Except.ok td) now s).1.lastRefreshError =
      (if batchErrors pd = [] ∧ batchErrors td = [] then none
       else some (aggregateErrorMessage (batchErrors pd) (batchErrors td))) ∧
    (refreshComplete (Except.ok pd) (Except.ok td) now s).2 = Except.ok () := by
  rw [refreshComplete_ok_ok]
  by_cases hp : batchErrors pd = []
  · by_cases ht : batchErrors td = []
    · simp [hp, ht]
    · have hlen : (batchErrors td).length > 0 := List.length_pos.mpr ht
      simp [hp, ht, hlen]
  · have hlen : (batchErrors pd).length > 0 := List.length_pos.mpr hp
    simp [hp, hlen]

/-! ## Claim C2: single-flight coalescing -/

/-- C2: a call to `refreshData` while a refresh promise is in flight returns
that same promise and changes nothing (in particular it starts no new fetch
batch); a call with no refresh in flight installs the fresh promise it
returns (the slot is non-null while the refresh executes) and starts exactly
one batch; and when the in-flight refresh settles — whatever the fetch
outcomes — the slot is cleared to `none` and `lastRefresh` is stamped with
the current time. -/
theorem refreshData_single_flight (s : SysState) (p : Nat)
    (pd : Except String (List (Except String ParserEntity)))
    (td : Except String (List (Except String TemplateEntity))) (now : Nat) :
    (s.reg.refreshDataPromise = some p → refreshDataCall s = (s, p)) ∧
    (s.reg.refreshDataPromise = none →
      (refreshDataCall s).1.reg.refreshDataPromise =
        some (refreshDataCall s).2 ∧
      (refreshDataCall s).1.batchesStarted = s.batchesStarted + 1) ∧
    (refreshDataSettle pd td now s).1.reg.refreshDataPromise = none ∧
    (refreshDataSettle pd td now s).1.reg.lastRefresh = now := by
  refine ⟨?_, ?_, ?_, ?_⟩
  · intro h
    simp [refreshDataCall, h]
  · intro h
    simp [refreshDataCall, h]
  · exact (refreshComplete_clears_gate pd td now s.reg).2
  · exact (refreshComplete_clears_gate pd td now s.reg).1

/-- Witness for C2 at concrete states: with promise 5 in flight, calling
returns promise 5 unchanged; with no promise in flight, the fresh promise 7
is installed and the batch counter moves from 2 to 3; settling with a failed
parser-directory listing at time 42 clears the slot and stamps the time. -/
theorem refreshData_single_flight_witness :
    (refreshDataCall
        { reg := { parsers := [], templates := [], lastRefresh := 0,
                   refreshDataPromise := some 5, lastRefreshError := none },
          nextPromiseId := 7, batchesStarted := 2 } =
      ({ reg := { parsers := [], templates := [], lastRefresh := 0,
                  refreshDataPromise := some 5, lastRefreshError := none },
         nextPromiseId := 7, batchesStarted := 2 }, 5)) ∧
    ((refreshDataCall
        { reg := { parsers := [], templates := [], lastRefresh := 0,
                   refreshDataPromise := none, lastRefreshError := none },
          nextPromiseId := 7, batchesStarted := 2 }).1.reg.refreshDataPromise =
      some (refreshDataCall
        { reg := { parsers := [], templates := [], lastRefresh := 0,
                   refreshDataPromise := none, lastRefreshError := none },
          nextPromiseId := 7, batchesStarted := 2 }).2 ∧
     (refreshDataCall
        { reg := { parsers := [], templates := [], lastRefresh := 0,
                   refreshDataPromise := none, lastRefreshError := none },
          nextPromiseId := 7, batchesStarted := 2 }).1.batchesStarted = 2 + 1) ∧
    (refreshDataSettle (Except.error "listing down") (Except.ok []) 42
        { reg := { parsers := [], templates := [], lastRefresh := 0,
                   refreshDataPromise := some 5, lastRefreshError := none },
          nextPromiseId := 7, batchesStarted := 2 }).1.reg.refreshDataPromise =
      none ∧
    (refreshDataSettle (Except.error "listing down") (Except.ok []) 42
        { reg := { parsers := [], templates := [], lastRefresh := 0,
                   refreshDataPromise := some 5, lastRefreshError := none },
          nextPromiseId := 7, batchesStarted := 2 }).1.reg.lastRefresh = 42 := by
  refine ⟨?_, ?_, ?_, ?_⟩
  · exact (refreshData_single_flight _ 5 (Except.ok []) (Except.ok []) 0).1 rfl
  · exact (refreshData_single_flight _ 0 (Except.ok []) (Except.ok []) 0).2.1 rfl
  · exact (refreshData_single_flight _ 0 (Except.error "listing down")
      (Except.ok []) 42).2.2.1
  · exact (refreshData_single_flight _ 0 (Except.error "listing down")
      (Except.ok []) 42).2.2.2

/-! ## Claim C4: wholesale swap or no change -/

/-- C4: every refresh attempt either replaces both catalogs with the
catalogs built from that same attempt's two directory results, or leaves
both exactly unchanged — never a mix; in particular a failed parser- or
template-directory listing leaves both catalogs as they were and records
the failure in `lastRefreshError`. -/
theorem refresh_swap_all_or_nothing
    (pd : Except String (List (Except String ParserEntity)))
    (td : Except String (List (Except String TemplateEntity)))
    (now : Nat) (s : RegistryState) (e : String) :
    ((∃ fp ft, pd = Except.ok fp ∧ td = Except.ok ft ∧
       (refreshComplete pd td now s).1.parsers =
         (fetchMapCore fp ParserEntity.name none).ok ∧
       (refreshComplete pd td now s).1.templates =
         (fetchMapCore ft TemplateEntity.name (some templateFilter)).ok) ∨
     ((refreshComplete pd td now s).1.parsers = s.parsers ∧
      (refreshComplete pd td now s).1.templates = s.templates)) ∧
    (pd = Except.error e →
      (refreshComplete pd td now s).1.parsers = s.parsers ∧
      (refreshComplete pd td now s).1.templates = s.templates ∧
      (refreshComplete pd td now s).1.lastRefreshError = some e) ∧
    (∀ fp, pd = Except.ok fp → td = Except.error e →
      (refreshComplete pd td now s).1.parsers = s.parsers ∧
      (refreshComplete pd td now s).1.templates = s.templates ∧
      (refreshComplete pd td now s).1.lastRefreshError = some e) := by
  refine ⟨refreshComplete_catalogs pd td now s, ?_, ?_⟩
  · intro h
    subst h
    rw [refreshComplete_pd_error]
    exact ⟨rfl, rfl, rfl⟩
  · intro fp hp ht
    subst hp
    subst ht
    rw [refreshComplete_td_error]
    exact ⟨rfl, rfl, rfl⟩

/-- Witness for C4: a concrete attempt whose template-directory listing
fails leaves the one-entry parser catalog untouched and records the
failure. -/
theorem refresh_swap_all_or_nothing_witness :
    (refreshComplete (Except.ok []) (Except.error "503: listing")
        17
        { parsers := [("A", { name := "A", isMatch := fun _ => true,
                              getRedirectUrl := fun _ => none })],
          templates := [], lastRefresh := 3, refreshDataPromise := some 1,
          lastRefreshError := none }).1.parsers =
      [("A", { name := "A", isMatch := fun _ => true,
               getRedirectUrl := fun _ => none })] ∧
    (refreshComplete (Except.ok []) (Except.error "503: listing")
        17
        { parsers := [("A", { name := "A", isMatch := fun _ => true,
                              getRedirectUrl := fun _ => none })],
          templates := [], lastRefresh := 3, refreshDataPromise := some 1,
          lastRefreshError := none }).1.templates = [] ∧
    (refreshComplete (Except.ok []) (Except.error "503: listing")
        17
        { parsers := [("A", { name := "A", isMatch := fun _ => true,
                              getRedirectUrl := fun _ => none })],
          templates := [], lastRefresh := 3, refreshDataPromise := some 1,
          lastRefreshError := none }).1.lastRefreshError = some "503: listing" :=
  (refresh_swap_all_or_nothing (Except.ok []) (Except.error "503: listing")
    17 _ "503: listing").2.2 [] rfl rfl

/-! ## Library lemmas about batch successes -/

theorem filteredSuccesses_some (fetches : List (Except String α)) (f : α → Bool) :
    filteredSuccesses fetches (some f) =
      (filteredSuccesses fetches none).filter f := rfl

theorem mem_filteredSuccesses_none (fetches : List (Except String α)) (x : α) :
    x ∈ filteredSuccesses fetches none ↔ Except.ok x ∈ fetches := by
  simp only [filteredSuccesses, allPossible, List.filterMap_map, List.mem_filterMap]
  constructor
  · rintro ⟨z, hz, hgz⟩
    cases z with
    | ok a =>
      simp only [Function.comp] at hgz
      cases hgz
      exact hz
    | error e => simp [Function.comp] at hgz
  · intro h
    exact ⟨Except.ok x, h, rfl⟩

theorem fetchMapCore_mem (fetches : List (Except String α))
    (getName : α → String) (entityFilter : Option (α → Bool)) (k : String) (e : α)
    (h : (k, e) ∈ (fetchMapCore fetches getName entityFilter).ok) :
    k = getName e ∧ e ∈ filteredSuccesses fetches entityFilter := by
  have h1 := jsMapOfList_mem _ _ h
  rw [List.mem_map] at h1
  obtain ⟨x, hx, hxe⟩ := h1
  have he : x = e := congrArg Prod.snd hxe
  subst he
  have hk : getName x = k := congrArg Prod.fst hxe
  exact ⟨hk.symm, hx⟩

theorem mem_filteredSuccesses (fetches : List (Except String α))
    (entityFilter : Option (α → Bool)) (x : α) :
    x ∈ filteredSuccesses fetches entityFilter ↔
      (Except.ok x ∈ fetches ∧ ∀ f, entityFilter = some f → f x = true) := by
  cases entityFilter with
  | none => simp [mem_filteredSuccesses_none]
  | some f =>
    rw [filteredSuccesses_some, List.mem_filter, mem_filteredSuccesses_none]
    constructor
    · rintro ⟨h1, h2⟩
      exact ⟨h1, fun g hg => by cases hg; exact h2⟩
    · rintro ⟨h1, h2⟩
      exact ⟨h1, h2 f rfl⟩

theorem filteredSuccesses_filter_isOk (fetches : List (Except String α))
    (entityFilter : Option (α → Bool)) :
    filteredSuccesses (fetches.filter (fun f => f.isOk)) entityFilter =
      filteredSuccesses fetches entityFilter := by
  have base : filteredSuccesses (fetches.filter (fun f => f.isOk)) none =
      filteredSuccesses fetches none := by
    induction fetches with
    | nil => rfl
    | cons p t ih =>
      cases p with
      | ok a =>
        simp only [filteredSuccesses, allPossible, List.filter_cons] at ih ⊢
        simpa [Except.isOk, Except.toBool] using ih
      | error e =>
        simp only [filteredSuccesses, allPossible, List.filter_cons] at ih ⊢
        simpa [Except.isOk, Except.toBool] using ih
  cases entityFilter with
  | none => exact base
  | some f => rw [filteredSuccesses_some, filteredSuccesses_some, base]

theorem fetchMapCore_get (fetches : List (Except String α))
    (getName : α → String) (entityFilter : Option (α → Bool)) (k : String) :
    jsMapGet (fetchMapCore fetches getName entityFilter).ok k =
      (filteredSuccesses fetches entityFilter).reverse.find?
        (fun e => getName e = k) := by
  rw [fetchMapCore_ok_eq, jsMapOfList_get, ← List.map_reverse, List.find?_map,
    Option.map_map]
  have hpred : ((fun p : String × α => decide (p.1 = k)) ∘
      (fun e => (getName e, e))) = (fun e => decide (getName e = k)) := rfl
  rw [hpred]
  cases (filteredSuccesses fetches entityFilter).reverse.find?
    (fun e => decide (getName e = k)) <;> rfl

/-! ## Claim C3: per-entry failures are isolated -/

/-- C3: during catalog population of one directory, each per-entry failure
is captured as a value and never rejects the batch (`fetchMap` fulfills
whenever the listing fulfilled), the built catalog is exactly the one built
from the successful entries alone (failures have no effect on it), and
every successfully fetched and constructed entry that passes the entity
filter appears in the catalog under its name — itself when its name is
unique among the successes, and in general the last success of that name
(JS `Map` last-write-wins). -/
theorem fetchMap_isolates_per_entry_failures {α : Type}
    (fetches : List (Except String α)) (getName : α → String)
    (entityFilter : Option (α → Bool)) (a : α) :
    fetchMap (Except.ok fetches) getName entityFilter =
      Except.ok (fetchMapCore fetches getName entityFilter) ∧
    (fetchMapCore fetches getName entityFilter).ok =
      (fetchMapCore (fetches.filter (fun f => f.isOk)) getName entityFilter).ok ∧
    (Except.ok a ∈ fetches → (∀ f, entityFilter = some f → f a = true) →
      ∃ a', jsMapGet (fetchMapCore fetches getName entityFilter).ok
          (getName a) = some a' ∧
        Except.ok a' ∈ fetches ∧ (∀ f, entityFilter = some f → f a' = true) ∧
        getName a' = getName a) ∧
    (Except.ok a ∈ fetches → (∀ f, entityFilter = some f → f a = true) →
      (∀ b, Except.ok b ∈ fetches → (∀ f, entityFilter = some f → f b = true) →
        getName b = getName a → b = a) →
      jsMapGet (fetchMapCore fetches getName entityFilter).ok (getName a) =
        some a) := by
  have hmemstep : ∀ x, Except.ok x ∈ fetches →
      (∀ f, entityFilter = some f → f x = true) →
      x ∈ filteredSuccesses fetches entityFilter := by
    intro x h1 h2
    exact (mem_filteredSuccesses fetches entityFilter x).mpr ⟨h1, h2⟩
  have hfind : ∀ (ha : a ∈ filteredSuccesses fetches entityFilter),
      ∃ a', (filteredSuccesses fetches entityFilter).reverse.find?
          (fun e => getName e = getName a) = some a' ∧
        a' ∈ filteredSuccesses fetches entityFilter ∧
        getName a' = getName a := by
    intro ha
    have hsome : ((filteredSuccesses fetches entityFilter).reverse.find?
        (fun e => decide (getName e = getName a))).isSome := by
      apply List.find?_isSome.mpr
      exact ⟨a, List.mem_reverse.mpr ha, by simp⟩
    obtain ⟨a', ha'⟩ := Option.isSome_iff_exists.mp hsome
    refine ⟨a', ha', List.mem_reverse.mp (List.mem_of_find?_eq_some ha'), ?_⟩
    have := List.find?_some ha'
    exact of_decide_eq_true this
  refine ⟨rfl, ?_, ?_, ?_⟩
  · rw [fetchMapCore_ok_eq, fetchMapCore_ok_eq, filteredSuccesses_filter_isOk]
  · intro h1 h2
    obtain ⟨a', ha', hmem, hname⟩ := hfind (hmemstep a h1 h2)
    have hm := (mem_filteredSuccesses fetches entityFilter a').mp hmem
    exact ⟨a', by rw [fetchMapCore_get]; exact ha', hm.1, hm.2, hname⟩
  · intro h1 h2 huniq
    obtain ⟨a', ha', hmem, hname⟩ := hfind (hmemstep a h1 h2)
    have hm := (mem_filteredSuccesses fetches entityFilter a').mp hmem
    have : a' = a := huniq a' hm.1 hm.2 hname
    rw [fetchMapCore_get, ha', this]

/-- Witness for C3: in a directory whose middle fetch rejects, both
surviving successes appear in the catalog under their own names, and the
catalog equals the one built with the failure absent. -/
theorem fetchMap_isolates_per_entry_failures_witness :
    Except.ok "alpha" ∈
      ([Except.ok "alpha", Except.error "boom", Except.ok "beta"] :
        List (Except String String)) ∧
    jsMapGet (fetchMapCore
        [Except.ok "alpha", Except.error "boom", Except.ok "beta"]
        (fun s => s) none).ok "alpha" = some "alpha" ∧
    (fetchMapCore [Except.ok "alpha", Except.error "boom", Except.ok "beta"]
        (fun s => s) none).ok =
      (fetchMapCore
        (([Except.ok "alpha", Except.error "boom", Except.ok "beta"] :
          List (Except String String)).filter (fun f => f.isOk))
        (fun s => s) none).ok := by
  refine ⟨List.mem_cons_self _ _, ?_, ?_⟩
  · exact (fetchMap_isolates_per_entry_failures
      [Except.ok "alpha", Except.error "boom", Except.ok "beta"]
      (fun s => s) none "alpha").2.2.2 (List.mem_cons_self _ _)
      (fun f hf => by cases hf)
      (fun b _ _ hname => hname)
  · exact (fetchMap_isolates_per_entry_failures
      [Except.ok "alpha", Except.error "boom", Except.ok "beta"]
      (fun s => s) none "alpha").2.1

/-! ## Claim C9: the reserved pass-through template is excluded -/

/-- C9: after template-catalog population, no entry's name trims to the
reserved pass-through name `"Original look"`: every member of the built
catalog passes `templateFilter`, the invariant survives any refresh
completion, and the concrete directory `["Original look", "Compact"]`
yields a catalog in which only `"Compact"` is addressable. -/
theorem templates_catalog_excludes_pass_through
    (td : List (Except String TemplateEntity))
    (pd : Except String (List (Except String ParserEntity)))
    (tdr : Except String (List (Except String TemplateEntity)))
    (now : Nat) (s : RegistryState) (k : String) (e : TemplateEntity) :
    ((k, e) ∈ (fetchMapCore td TemplateEntity.name (some templateFilter)).ok →
      jsTrim e.name ≠ ORIGINAL_LOOK_NAME) ∧
    ((∀ q ∈ s.templates, jsTrim q.2.name ≠ ORIGINAL_LOOK_NAME) →
      ∀ q ∈ (refreshComplete pd tdr now s).1.templates,
        jsTrim q.2.name ≠ ORIGINAL_LOOK_NAME) ∧
    (fetchMapCore
        [Except.ok { name := "Original look", precompiled := "x" },
         Except.ok { name := "Compact", precompiled := "y" }]
        TemplateEntity.name (some templateFilter)).ok =
      [("Compact", { name := "Compact", precompiled := "y" })] := by
  have key : ∀ (td' : List (Except String TemplateEntity)) (q : String × TemplateEntity),
      q ∈ (fetchMapCore td' TemplateEntity.name (some templateFilter)).ok →
      jsTrim q.2.name ≠ ORIGINAL_LOOK_NAME := by
    intro td' q hq
    have h2 := (fetchMapCore_mem td' TemplateEntity.name (some templateFilter)
      q.1 q.2 hq).2
    rw [filteredSuccesses_some] at h2
    have hf := (List.mem_filter.mp h2).2
    have := of_decide_eq_true hf
    exact fun hc => this (hc ▸ rfl)
  refine ⟨fun h => key td (k, e) h, ?_, by decide⟩
  intro hs q hq
  rcases refreshComplete_catalogs pd tdr now s with ⟨fp, ft, _, _, _, hT⟩ | ⟨_, hT⟩
  · exact key ft q (hT ▸ hq)
  · exact hs q (hT ▸ hq)

/-- Witness for C9: the catalog built from `["Original look", "Compact"]`
holds exactly the `"Compact"` entry; that entry's trimmed name differs from
the reserved name; and the invariant applied to a refresh from an empty
registry state yields the same for the published catalog's entry. -/
theorem templates_catalog_excludes_pass_through_witness :
    ("Compact",
        ({ name := "Compact", precompiled := "y" } : TemplateEntity)) ∈
      (fetchMapCore
        [Except.ok { name := "Original look", precompiled := "x" },
         Except.ok { name := "Compact", precompiled := "y" }]
        TemplateEntity.name (some templateFilter)).ok ∧
    jsTrim ({ name := "Compact", precompiled := "y" } : TemplateEntity).name ≠
      ORIGINAL_LOOK_NAME ∧
    (fetchMapCore
        [Except.ok { name := "Original look", precompiled := "x" },
         Except.ok { name := "Compact", precompiled := "y" }]
        TemplateEntity.name (some templateFilter)).ok =
      [("Compact", { name := "Compact", precompiled := "y" })] := by
  have hmem : ("Compact",
      ({ name := "Compact", precompiled := "y" } : TemplateEntity)) ∈
      (fetchMapCore
        [Except.ok { name := "Original look", precompiled := "x" },
         Except.ok { name := "Compact", precompiled := "y" }]
        TemplateEntity.name (some templateFilter)).ok := by decide
  refine ⟨hmem, ?_, ?_⟩
  · exact (templates_catalog_excludes_pass_through
      [Except.ok { name := "Original look", precompiled := "x" },
       Except.ok { name := "Compact", precompiled := "y" }]
      (Except.ok []) (Except.ok []) 0
      { parsers := [], templates := [], lastRefresh := 0,
        refreshDataPromise := none, lastRefreshError := none }
      "Compact" { name := "Compact", precompiled := "y" }).1 hmem
  · exact (templates_catalog_excludes_pass_through
      [Except.ok { name := "Original look", precompiled := "x" },
       Except.ok { name := "Compact", precompiled := "y" }]
      (Except.ok []) (Except.ok []) 0
      { parsers := [], templates := [], lastRefresh := 0,
        refreshDataPromise := none, lastRefreshError := none }
      "Compact" { name := "Compact", precompiled := "y" }).2.2

/-! ## Claim C5: render endpoint status mapping -/

/-- C5 (amended): a missing template yields 404 with a body naming it; no
matching parser yields 404 with a body naming the url; an exception from
any pipeline step that runs before the response head is written — page
fetch, parse, URL-origin computation, template-spec `eval` — yields 500
with the error's textual description as the body; on full success the
response is 200 with the rendered text and the configured content type.
Amendment forced by the code: an exception raised by the final
template-render invocation occurs after `res.writeHead(200, ...)` has
fixed the head, so that response goes out with status 200 and the error
text as body (the catch's `statusCode = 500` assignment no longer takes
effect). -/
theorem render_endpoint_responses
    (settings : Settings) (templates : List (String × TemplateEntity))
    (parsers : List (String × ParserEntity)) (qUrl qTemplate : Option String)
    (pageFetch : String → Except String String)
    (parseContent : String → Except String (List (String × Token)))
    (urlOrigin : String → Except String String)
    (evalSpec : TemplateEntity → Except String Unit)
    (runTemplate : List (String × Token) → Except String String)
    (t : TemplateEntity) (u : String) (parser : ParserEntity)
    (webData : String) (content : List (String × Token))
    (origin : String) (e out : String) :
    (qTemplate.bind (jsMapGet templates) = none →
      (render settings templates parsers qUrl qTemplate pageFetch
          parseContent urlOrigin evalSpec runTemplate).finalStatus = 404 ∧
      (render settings templates parsers qUrl qTemplate pageFetch
          parseContent urlOrigin evalSpec runTemplate).body =
        some ("Template " ++ jsInterpolate qTemplate ++ " not found")) ∧
    (qTemplate.bind (jsMapGet templates) = some t →
      findParser parsers qUrl = none →
      (render settings templates parsers qUrl qTemplate pageFetch
          parseContent urlOrigin evalSpec runTemplate).finalStatus = 404 ∧
      (render settings templates parsers qUrl qTemplate pageFetch
          parseContent urlOrigin evalSpec runTemplate).body =
        some ("No matching parsers for " ++ jsInterpolate qUrl)) ∧
    (qTemplate.bind (jsMapGet templates) = some t → qUrl = some u →
      findParser parsers (some u) = some parser →
      pageFetch (resolveRedirect parser u) = Except.error e →
      (render settings templates parsers qUrl qTemplate pageFetch
          parseContent urlOrigin evalSpec runTemplate).finalStatus = 500 ∧
      (render settings templates parsers qUrl qTemplate pageFetch
          parseContent urlOrigin evalSpec runTemplate).body = some e) ∧
    (qTemplate.bind (jsMapGet templates) = some t → qUrl = some u →
      findParser parsers (some u) = some parser →
      pageFetch (resolveRedirect parser u) = Except.ok webData →
      parseContent webData = Except.error e →
      (render settings templates parsers qUrl qTemplate pageFetch
          parseContent urlOrigin evalSpec runTemplate).finalStatus = 500 ∧
      (render settings templates parsers qUrl qTemplate pageFetch
          parseContent urlOrigin evalSpec runTemplate).body = some e) ∧
    (qTemplate.bind (jsMapGet templates) = some t → qUrl = some u →
      findParser parsers (some u) = some parser →
      pageFetch (resolveRedirect parser u) = Except.ok webData →
      parseContent webData = Except.ok content →
      urlOrigin (resolveRedirect parser u) = Except.error e →
      (render settings templates parsers qUrl qTemplate pageFetch
          parseContent urlOrigin evalSpec runTemplate).finalStatus = 500 ∧
      (render settings templates parsers qUrl qTemplate pageFetch
          parseContent urlOrigin evalSpec runTemplate).body = some e) ∧
    (qTemplate.bind (jsMapGet templates) = some t → qUrl = some u →
      findParser parsers (some u) = some parser →
      pageFetch (resolveRedirect parser u) = Except.ok webData →
      parseContent webData = Except.ok content →
      urlOrigin (resolveRedirect parser u) = Except.ok origin →
      evalSpec t = Except.error e →
      (render settings templates parsers qUrl qTemplate pageFetch
          parseContent urlOrigin evalSpec runTemplate).finalStatus = 500 ∧
      (render settings templates parsers qUrl qTemplate pageFetch
          parseContent urlOrigin evalSpec runTemplate).body = some e) ∧
    (qTemplate.bind (jsMapGet templates) = some t → qUrl = some u →
      findParser parsers (some u) = some parser →
      pageFetch (resolveRedirect parser u) = Except.ok webData →
      parseContent webData = Except.ok content →
      urlOrigin (resolveRedirect parser u) = Except.ok origin →
      evalSpec t = Except.ok () →
      runTemplate (renderTokens content origin (resolveRedirect parser u)) =
        Except.ok out →
      (render settings templates parsers qUrl qTemplate pageFetch
          parseContent urlOrigin evalSpec runTemplate).finalStatus = 200 ∧
      (render settings templates parsers qUrl qTemplate pageFetch
          parseContent urlOrigin evalSpec runTemplate).body = some out ∧
      (render settings templates parsers qUrl qTemplate pageFetch
          parseContent urlOrigin evalSpec runTemplate).finalContentType =
        some settings.defaultContentType) ∧
    (qTemplate.bind (jsMapGet templates) = some t → qUrl = some u →
      findParser parsers (some u) = some parser →
      pageFetch (resolveRedirect parser u) = Except.ok webData →
      parseContent webData = Except.ok content →
      urlOrigin (resolveRedirect parser u) = Except.ok origin →
      evalSpec t = Except.ok () →
      runTemplate (renderTokens content origin (resolveRedirect parser u)) =
        Except.error e →
      (render settings templates parsers qUrl qTemplate pageFetch
          parseContent urlOrigin evalSpec runTemplate).finalStatus = 200 ∧
      (render settings templates parsers qUrl qTemplate pageFetch
          parseContent urlOrigin evalSpec runTemplate).body = some e ∧
      (render settings templates parsers qUrl qTemplate pageFetch
          parseContent urlOrigin evalSpec runTemplate).statusCode = 500) := by
  refine ⟨?_, ?_, ?_, ?_, ?_, ?_, ?_, ?_⟩
  · intro h1
    simp [render, h1, Res.finalStatus]
  · intro h1 h2
    simp [render, h1, h2, Res.finalStatus]
  · intro h1 h2 h3 h4
    subst h2
    simp [render, h1, h3, h4, renderCatch, Res.finalStatus]
  · intro h1 h2 h3 h4 h5
    subst h2
    simp [render, h1, h3, h4, h5, renderCatch, Res.finalStatus]
  · intro h1 h2 h3 h4 h5 h6
    subst h2
    simp [render, h1, h3, h4, h5, h6, renderCatch, Res.finalStatus]
  · intro h1 h2 h3 h4 h5 h6 h7
    subst h2
    simp [render, h1, h3, h4, h5, h6, h7, renderCatch, Res.finalStatus]
  · intro h1 h2 h3 h4 h5 h6 h7 h8
    subst h2
    simp [render, h1, h3, h4, h5, h6, h7, h8, Res.finalStatus,
      Res.finalContentType]
  · intro h1 h2 h3 h4 h5 h6 h7 h8
    subst h2
    simp [render, h1, h3, h4, h5, h6, h7, h8, Res.finalStatus]

/-! Concrete request scenario used by the C5 counterexample and witness. -/

/-- Concrete settings (`DEFAULT_SETTINGS`-like values). -/
def wSettings : Settings :=
  { defaultContentType := "text/html; charset=utf-8",
    defaultUserAgent := "Mozilla/5.0" }

/-- A concrete template entity named `t`. -/
def wTemplate : TemplateEntity := { name := "t", precompiled := "spec" }

/-- A one-template catalog. -/
def wTemplates : List (String × TemplateEntity) := [("t", wTemplate)]

/-- A one-parser catalog whose parser matches every url. -/
def wParsers : List (String × ParserEntity) := [("p", alwaysMatchParser "p")]

/-- The concrete request url. -/
def wUrl : String := "https://example.com/page"

/-- Page fetch that succeeds with a fixed body. -/
def okFetch : String → Except String String := fun _ => Except.ok "<html>"

/-- Parse step that succeeds with an empty extracted tree. -/
def okParse : String → Except String (List (String × Token)) :=
  fun _ => Except.ok []

/-- Origin computation that succeeds. -/
def okOrigin : String → Except String String :=
  fun _ => Except.ok "https://example.com"

/-- Spec `eval` that succeeds. -/
def okEval : TemplateEntity → Except String Unit := fun _ => Except.ok ()

/-- Render invocation that succeeds with fixed output. -/
def okRun : List (String × Token) → Except String String :=
  fun _ => Except.ok "rendered"

/-- Render invocation that throws `boom`. -/
def errRun : List (String × Token) → Except String String :=
  fun _ => Except.error "boom"

/-- Page fetch that rejects. -/
def errFetch : String → Except String String :=
  fun _ => Except.error "fetch down"

/-- Parse step that throws. -/
def errParse : String → Except String (List (String × Token)) :=
  fun _ => Except.error "bad definition"

/-- Origin computation that throws (`new URL` on an invalid url). -/
def errOrigin : String → Except String String :=
  fun _ => Except.error "TypeError: Invalid URL"

/-- Spec `eval` that throws. -/
def errEval : TemplateEntity → Except String Unit :=
  fun _ => Except.error "SyntaxError"

/-- Witness for C5 (amended), one concrete request per branch: unknown
template → 404 naming it; absent url → 404 naming it; fetch, parse,
origin and eval failures → 500 with the error text; full success → 200
with the rendered text and configured content type; render-invocation
failure → 200 head with the error text as body. -/
theorem render_endpoint_responses_witness :
    ((render wSettings wTemplates wParsers (some wUrl) (some "missing")
        okFetch okParse okOrigin okEval okRun).finalStatus = 404 ∧
     (render wSettings wTemplates wParsers (some wUrl) (some "missing")
        okFetch okParse okOrigin okEval okRun).body =
       some ("Template " ++ jsInterpolate (some "missing") ++ " not found")) ∧
    ((render wSettings wTemplates wParsers none (some "t")
        okFetch okParse okOrigin okEval okRun).finalStatus = 404 ∧
     (render wSettings wTemplates wParsers none (some "t")
        okFetch okParse okOrigin okEval okRun).body =
       some ("No matching parsers for " ++ jsInterpolate none)) ∧
    ((render wSettings wTemplates wParsers (some wUrl) (some "t")
        errFetch okParse okOrigin okEval okRun).finalStatus = 500 ∧
     (render wSettings wTemplates wParsers (some wUrl) (some "t")
        errFetch okParse okOrigin okEval okRun).body = some "fetch down") ∧
    ((render wSettings wTemplates wParsers (some wUrl) (some "t")
        okFetch errParse okOrigin okEval okRun).finalStatus = 500 ∧
     (render wSettings wTemplates wParsers (some wUrl) (some "t")
        okFetch errParse okOrigin okEval okRun).body =
       some "bad definition") ∧
    ((render wSettings wTemplates wParsers (some wUrl) (some "t")
        okFetch okParse errOrigin okEval okRun).finalStatus = 500 ∧
     (render wSettings wTemplates wParsers (some wUrl) (some "t")
        okFetch okParse errOrigin okEval okRun).body =
       some "TypeError: Invalid URL") ∧
    ((render wSettings wTemplates wParsers (some wUrl) (some "t")
        okFetch okParse okOrigin errEval okRun).finalStatus = 500 ∧
     (render wSettings wTemplates wParsers (some wUrl) (some "t")
        okFetch okParse okOrigin errEval okRun).body = some "SyntaxError") ∧
    ((render wSettings wTemplates wParsers (some wUrl) (some "t")
        okFetch okParse okOrigin okEval okRun).finalStatus = 200 ∧
     (render wSettings wTemplates wParsers (some wUrl) (some "t")
        okFetch okParse okOrigin okEval okRun).body = some "rendered" ∧
     (render wSettings wTemplates wParsers (some wUrl) (some "t")
        okFetch okParse okOrigin okEval okRun).finalContentType =
       some wSettings.defaultContentType) ∧
    ((render wSettings wTemplates wParsers (some wUrl) (some "t")
        okFetch okParse okOrigin okEval errRun).finalStatus = 200 ∧
     (render wSettings wTemplates wParsers (some wUrl) (some "t")
        okFetch okParse okOrigin okEval errRun).body = some "boom" ∧
     (render wSettings wTemplates wParsers (some wUrl) (some "t")
        okFetch okParse okOrigin okEval errRun).statusCode = 500) := by
  refine ⟨?_, ?_, ?_, ?_, ?_, ?_, ?_, ?_⟩
  · exact (render_endpoint_responses wSettings wTemplates wParsers
      (some wUrl) (some "missing") okFetch okParse okOrigin okEval okRun
      wTemplate wUrl (alwaysMatchParser "p") "<html>" []
      "https://example.com" "" "").1 rfl
  · exact (render_endpoint_responses wSettings wTemplates wParsers
      none (some "t") okFetch okParse okOrigin okEval okRun
      wTemplate wUrl (alwaysMatchParser "p") "<html>" []
      "https://example.com" "" "").2.1 rfl rfl
  · exact (render_endpoint_responses wSettings wTemplates wParsers
      (some wUrl) (some "t") errFetch okParse okOrigin okEval okRun
      wTemplate wUrl (alwaysMatchParser "p") "<html>" []
      "https://example.com" "fetch down" "").2.2.1 rfl rfl rfl rfl
  · exact (render_endpoint_responses wSettings wTemplates wParsers
      (some wUrl) (some "t") okFetch errParse okOrigin okEval okRun
      wTemplate wUrl (alwaysMatchParser "p") "<html>" []
      "https://example.com" "bad definition" "").2.2.2.1 rfl rfl rfl rfl rfl
  · exact (render_endpoint_responses wSettings wTemplates wParsers
      (some wUrl) (some "t") okFetch okParse errOrigin okEval okRun
      wTemplate wUrl (alwaysMatchParser "p") "<html>" []
      "https://example.com" "TypeError: Invalid URL" "").2.2.2.2.1
      rfl rfl rfl rfl rfl rfl
  · exact (render_endpoint_responses wSettings wTemplates wParsers
      (some wUrl) (some "t") okFetch okParse okOrigin errEval okRun
      wTemplate wUrl (alwaysMatchParser "p") "<html>" []
      "https://example.com" "SyntaxError" "").2.2.2.2.2.1
      rfl rfl rfl rfl rfl rfl rfl
  · exact (render_endpoint_responses wSettings wTemplates wParsers
      (some wUrl) (some "t") okFetch okParse okOrigin okEval okRun
      wTemplate wUrl (alwaysMatchParser "p") "<html>" []
      "https://example.com" "" "rendered").2.2.2.2.2.2.1
      rfl rfl rfl rfl rfl rfl rfl rfl
  · exact (render_endpoint_responses wSettings wTemplates wParsers
      (some wUrl) (some "t") okFetch okParse okOrigin okEval errRun
      wTemplate wUrl (alwaysMatchParser "p") "<html>" []
      "https://example.com" "boom" "").2.2.2.2.2.2.2
      rfl rfl rfl rfl rfl rfl rfl rfl

/-- Counterexample to C5 as stated: with every pipeline step succeeding
except the final template-render invocation (which throws `"boom"`), the
claim demands a 500 response; the code sends the already-written 200 head
with the error text as body — the catch's 500 lands only in the dead
`statusCode` property. -/
theorem render_render_exception_not_500 :
    (render wSettings wTemplates wParsers (some wUrl) (some "t") okFetch
        okParse okOrigin okEval errRun).finalStatus = 200 ∧
    (render wSettings wTemplates wParsers (some wUrl) (some "t") okFetch
        okParse okOrigin okEval errRun).finalStatus ≠ 500 ∧
    (render wSettings wTemplates wParsers (some wUrl) (some "t") okFetch
        okParse okOrigin okEval errRun).body = some "boom" ∧
    (render wSettings wTemplates wParsers (some wUrl) (some "t") okFetch
        okParse okOrigin okEval errRun).statusCode = 500 := by
  have h : (render wSettings wTemplates wParsers (some wUrl) (some "t")
      okFetch okParse okOrigin okEval errRun).finalStatus = 200 := rfl
  exact ⟨h, by rw [h]; decide, rfl, rfl⟩

/-! ## Claim C8: `fetchFile` decoding -/

/-- C8 (amended): `fetchFile` rejects on a non-success HTTP status with
`statusText: url`; otherwise it decodes the body with the charset captured
from the content-type header's `charset` parameter when one is present and
recognized, decodes as UTF-8 when the header carries no `charset`
parameter, and returns the decoded text paired with the file's canonical
`html_url` link.  Amendment forced by the code: a *declared but
unrecognized* charset is handed to the `TextDecoder` constructor, which
throws, so such a fetch fails even though the HTTP status was a success —
there is no UTF-8 fallback for an unrecognized charset, only for an absent
one. -/
theorem fetchFile_decodes_with_declared_charset
    (dec : String → List Nat → String) (fi : FileInfo) (resp : HttpResp)
    (cs : List Char) (text : String) :
    (resp.ok = false →
      fetchFile dec fi resp =
        Except.error (resp.statusText ++ ": " ++ fi.download_url)) ∧
    (findCharsetCapture ((resp.contentType.getD "").data.map Char.toLower) = none →
      getFetchedText dec resp.contentType resp.bytes =
        Except.ok (dec "utf-8" resp.bytes)) ∧
    (findCharsetCapture ((resp.contentType.getD "").data.map Char.toLower) = some cs →
      textDecoderLabels.contains (String.mk cs) = true →
      getFetchedText dec resp.contentType resp.bytes =
        Except.ok (dec (String.mk cs) resp.bytes)) ∧
    (findCharsetCapture ((resp.contentType.getD "").data.map Char.toLower) = some cs →
      textDecoderLabels.contains (String.mk cs) = false →
      getFetchedText dec resp.contentType resp.bytes =
        Except.error ("RangeError: \"" ++ String.mk cs ++
          "\" is not a supported encoding")) ∧
    (resp.ok = true →
      getFetchedText dec resp.contentType resp.bytes = Except.ok text →
      fetchFile dec fi resp =
        Except.ok { link := fi.html_url, text := text }) := by
  refine ⟨?_, ?_, ?_, ?_, ?_⟩
  · intro h
    simp [fetchFile, h]
  · intro h
    have hmem : "utf-8" ∈ textDecoderLabels := by decide
    simp [getFetchedText, extractCharset, h, textDecoderDecode, hmem]
  · intro h hlab
    have hmem : String.mk cs ∈ textDecoderLabels := by simpa using hlab
    simp [getFetchedText, extractCharset, h, textDecoderDecode, hmem]
  · intro h hlab
    have hmem : String.mk cs ∉ textDecoderLabels := by simpa using hlab
    simp [getFetchedText, extractCharset, h, textDecoderDecode, hmem]
  · intro h htext
    simp [fetchFile, h, htext]
    rfl

/-- Witness for C8 (amended): a non-ok response rejects with
`statusText: url`; with no `charset` parameter the body is decoded as
UTF-8; a recognized `charset=windows-1251` is used as captured; the text
comes back paired with the `html_url`.  The decoder parameter echoes its
label so the conclusion exhibits which encoding was chosen. -/
theorem fetchFile_decodes_with_declared_charset_witness :
    (fetchFile (fun label _ => label)
        { name := "f.yaml", download_url := "https://raw.host/f.yaml",
          html_url := "https://host/f.yaml" }
        { ok := false, statusText := "Not Found",
          contentType := none, bytes := [] } =
      Except.error "Not Found: https://raw.host/f.yaml") ∧
    (getFetchedText (fun label _ => label) (some "text/plain") [] =
      Except.ok "utf-8") ∧
    (getFetchedText (fun label _ => label)
        (some "text/html; charset=windows-1251") [] =
      Except.ok "windows-1251") ∧
    (fetchFile (fun label _ => label)
        { name := "f.yaml", download_url := "https://raw.host/f.yaml",
          html_url := "https://host/f.yaml" }
        { ok := true, statusText := "OK",
          contentType := some "text/plain", bytes := [] } =
      Except.ok { link := "https://host/f.yaml", text := "utf-8" }) := by
  refine ⟨?_, ?_, ?_, ?_⟩
  · exact (fetchFile_decodes_with_declared_charset (fun label _ => label)
      { name := "f.yaml", download_url := "https://raw.host/f.yaml",
        html_url := "https://host/f.yaml" }
      { ok := false, statusText := "Not Found", contentType := none,
        bytes := [] } [] "").1 rfl
  · exact (fetchFile_decodes_with_declared_charset (fun label _ => label)
      { name := "f.yaml", download_url := "https://raw.host/f.yaml",
        html_url := "https://host/f.yaml" }
      { ok := true, statusText := "OK", contentType := some "text/plain",
        bytes := [] } [] "").2.1 rfl
  · exact (fetchFile_decodes_with_declared_charset (fun label _ => label)
      { name := "f.yaml", download_url := "https://raw.host/f.yaml",
        html_url := "https://host/f.yaml" }
      { ok := true, statusText := "OK",
        contentType := some "text/html; charset=windows-1251", bytes := [] }
      "windows-1251".data "").2.2.1 rfl rfl
  · exact (fetchFile_decodes_with_declared_charset (fun label _ => label)
      { name := "f.yaml", download_url := "https://raw.host/f.yaml",
        html_url := "https://host/f.yaml" }
      { ok := true, statusText := "OK", contentType := some "text/plain",
        bytes := [] } [] "utf-8").2.2.2.2 rfl rfl

/-- Counterexample to C8 as stated: a success response declaring
`charset=bogus` — a charset the platform does not recognize — is *not*
decoded as UTF-8; the captured label `bogus` is handed to the
`TextDecoder` constructor, which throws, so the fetch fails despite its
successful HTTP status. -/
theorem fetchFile_unrecognized_charset_fails :
    extractCharset "text/html; charset=bogus" = "bogus" ∧
    textDecoderLabels.contains "bogus" = false ∧
    fetchFile (fun label _ => label)
      { name := "f.yaml", download_url := "https://raw.host/f.yaml",
        html_url := "https://host/f.yaml" }
      { ok := true, statusText := "OK",
        contentType := some "text/html; charset=bogus", bytes := [] } =
      Except.error "RangeError: \"bogus\" is not a supported encoding" ∧
    fetchFile (fun label _ => label)
      { name := "f.yaml", download_url := "https://raw.host/f.yaml",
        html_url := "https://host/f.yaml" }
      { ok := true, statusText := "OK",
        contentType := some "text/html; charset=bogus", bytes := [] } ≠
      Except.ok { link := "https://host/f.yaml",
                  text := (fun label _ => label) "utf-8" ([] : List Nat) } := by
  refine ⟨rfl, rfl, rfl, ?_⟩
  intro h
  exact Except.noConfusion h

end MoyServer
